import Mathlib

/-!
Shallow embedding of the MB8600-watchdog repository (Python sources under
`src/`): the HNAP authentication key derivation and request signing from
`modem_reboot.py`, the reboot-cycle detector from `modem_reboot.py` /
`modem_reboot_improved.py`, the diagnostic classifier
`_analyze_reboot_necessity` from `monitor_internet_improved.py`, and the
supervisor loop state from `monitor_internet.py` /
`monitor_internet_improved.py`.

Bytes are modelled as `Nat` values below 256 and byte strings as
`List Nat`; 32-bit machine words are `Nat` reduced modulo `2 ^ 32` at every
operation where Python's `hashlib`/C implementation would wrap.
-/

namespace Watchdog

/-- The modulus `2 ^ 32` for MD5's 32-bit word arithmetic. -/
def w32 : Nat := 4294967296

/-- Bitwise complement on a 32-bit word represented as `Nat`. -/
def not32 (x : Nat) : Nat := Nat.xor x 4294967295

/-- Left-rotate a 32-bit word by `n` bits. -/
def rotl32 (x n : Nat) : Nat := ((x <<< n) ||| (x >>> (32 - n))) % w32

/-- Little-endian byte serialisation of `v` on `n` bytes. -/
def leBytes (n v : Nat) : List Nat :=
  (List.range n).map (fun i => (v >>> (8 * i)) % 256)

/-- MD5 sine-derived round constants (RFC 1321 table T). -/
def md5K : List Nat := [
  3614090360, 3905402710, 606105819, 3250441966, 4118548399, 1200080426, 2821735955, 4249261313,
  1770035416, 2336552879, 4294925233, 2304563134, 1804603682, 4254626195, 2792965006, 1236535329,
  4129170786, 3225465664, 643717713, 3921069994, 3593408605, 38016083, 3634488961, 3889429448,
  568446438, 3275163606, 4107603335, 1163531501, 2850285829, 4243563512, 1735328473, 2368359562,
  4294588738, 2272392833, 1839030562, 4259657740, 2763975236, 1272893353, 4139469664, 3200236656,
  681279174, 3936430074, 3572445317, 76029189, 3654602809, 3873151461, 530742520, 3299628645,
  4096336452, 1126891415, 2878612391, 4237533241, 1700485571, 2399980690, 4293915773, 2240044497,
  1873313359, 4264355552, 2734768916, 1309151649, 4149444226, 3174756917, 718787259, 3951481745]

/-- MD5 per-round left-rotation amounts (RFC 1321). -/
def md5S : List Nat := [
  7, 12, 17, 22, 7, 12, 17, 22,
  7, 12, 17, 22, 7, 12, 17, 22,
  5, 9, 14, 20, 5, 9, 14, 20,
  5, 9, 14, 20, 5, 9, 14, 20,
  4, 11, 16, 23, 4, 11, 16, 23,
  4, 11, 16, 23, 4, 11, 16, 23,
  6, 10, 15, 21, 6, 10, 15, 21,
  6, 10, 15, 21, 6, 10, 15, 21]

/-- MD5 padding: append `0x80`, zero-fill to 56 mod 64, then the original
bit length as a 64-bit little-endian integer. -/
def md5Pad (msg : List Nat) : List Nat :=
  let len := msg.length
  let k := (120 - (len + 1) % 64) % 64
  msg ++ [128] ++ List.replicate k 0 ++ leBytes 8 ((len * 8) % 18446744073709551616)

/-- The `j`-th little-endian 32-bit word of a 64-byte block. -/
def blockWord (block : List Nat) (j : Nat) : Nat :=
  block.getD (4 * j) 0 + 256 * block.getD (4 * j + 1) 0 +
    65536 * block.getD (4 * j + 2) 0 + 16777216 * block.getD (4 * j + 3) 0

/-- One of the 64 MD5 rounds applied to the running state `(a, b, c, d)`. -/
def md5Step (M : List Nat) (st : Nat × Nat × Nat × Nat) (i : Nat) :
    Nat × Nat × Nat × Nat :=
  let (a, b, c, d) := st
  let f :=
    if i < 16 then (b &&& c) ||| (not32 b &&& d)
    else if i < 32 then (d &&& b) ||| (not32 d &&& c)
    else if i < 48 then Nat.xor (Nat.xor b c) d
    else Nat.xor c (b ||| not32 d)
  let g :=
    if i < 16 then i
    else if i < 32 then (5 * i + 1) % 16
    else if i < 48 then (3 * i + 5) % 16
    else (7 * i) % 16
  let f' := (f + a + md5K.getD i 0 + M.getD g 0) % w32
  (d, (b + rotl32 f' (md5S.getD i 0)) % w32, b, c)

/-- Process one 64-byte block, updating the MD5 chaining state. -/
def md5Block (st : Nat × Nat × Nat × Nat) (block : List Nat) :
    Nat × Nat × Nat × Nat :=
  let M := (List.range 16).map (blockWord block)
  let (a, b, c, d) := (List.range 64).foldl (md5Step M) st
  ((st.1 + a) % w32, (st.2.1 + b) % w32, (st.2.2.1 + c) % w32, (st.2.2.2 + d) % w32)

/-- MD5 digest of a byte string, as a 16-byte list (RFC 1321; the reference
for Python's `hashlib.md5`). The padded message is processed in 64-byte
blocks indexed from the front. -/
def md5Bytes (msg : List Nat) : List Nat :=
  let padded := md5Pad msg
  let st := (List.range (padded.length / 64)).foldl
    (fun st i => md5Block st ((padded.drop (64 * i)).take 64))
    (1732584193, 4023233417, 2562383102, 271733878)
  leBytes 4 st.1 ++ leBytes 4 st.2.1 ++ leBytes 4 st.2.2.1 ++ leBytes 4 st.2.2.2

/-- Lowercase hexadecimal digit. -/
def hexChar (n : Nat) : Char := "0123456789abcdef".toList.getD n '0'

/-- Uppercase hexadecimal digit. -/
def hexCharU (n : Nat) : Char := "0123456789ABCDEF".toList.getD n '0'

/-- Lowercase hex string of a byte list (Python's `.hexdigest()`). -/
def hexOfBytes (bs : List Nat) : String :=
  String.mk ((bs.map (fun b => [hexChar (b / 16), hexChar (b % 16)])).flatten)

/-- Uppercase hex string of a byte list. -/
def hexOfBytesU (bs : List Nat) : String :=
  String.mk ((bs.map (fun b => [hexCharU (b / 16), hexCharU (b % 16)])).flatten)

/-- ASCII uppercasing of a string, the embedding of Python's `str.upper()`
on ASCII data such as hex digests. -/
def strUpper (s : String) : String := String.mk (s.toList.map Char.toUpper)

/-- ASCII bytes of a string (Python's `str.encode()` on ASCII data). -/
def strBytes (s : String) : List Nat := s.toList.map Char.toNat

/-- HMAC-MD5 (RFC 2104 with 64-byte block size, as implemented by Python's
`hmac.new(key, msg, hashlib.md5)`). -/
def hmacMd5 (key msg : List Nat) : List Nat :=
  let k0 := if 64 < key.length then md5Bytes key else key
  let k1 := k0 ++ List.replicate (64 - k0.length) 0
  let ipadded := k1.map (fun b => Nat.xor b 54)
  let opadded := k1.map (fun b => Nat.xor b 92)
  md5Bytes (opadded ++ md5Bytes (ipadded ++ msg))

/-- Embedding of `SurfboardHNAP.generate_keys` (`src/modem_reboot.py`
lines 163-178): derive `(privatekey, passkey)` from the login challenge,
the modem's public key and the admin password. -/
def generate_keys (challenge pubkey password : List Nat) : String × String :=
  let privatekey := strUpper (hexOfBytes (hmacMd5 (pubkey ++ password) challenge))
  let passkey := strUpper (hexOfBytes (hmacMd5 (strBytes privatekey) challenge))
  (privatekey, passkey)

/-- Embedding of `SurfboardHNAP.generate_hnap_auth` (`src/modem_reboot.py`
lines 180-195) with the wall-clock millisecond timestamp (Python's
`str(int(time.time() * 1000))`) made an explicit argument. -/
def generate_hnap_auth (privatekey operation curtime : String) : String :=
  let auth_key := curtime ++ "\"http://purenetworks.com/HNAP1/" ++ operation ++ "\""
  strUpper (hexOfBytes (hmacMd5 (strBytes privatekey) (strBytes auth_key))) ++ " " ++ curtime

/-- Specification-side definition, following the spec's words
("`privateKey = HMAC-MD5(key = publicKey‖password, message = challenge)`,
hex-encoded uppercase"), for comparison with `generate_keys`. -/
def specPrivateKey (challenge publicKey password : List Nat) : String :=
  hexOfBytesU (hmacMd5 (publicKey ++ password) challenge)

/-- Specification-side definition, following the spec's words
("`passKey = HMAC-MD5(key = privateKey, message = challenge)`, hex-encoded
uppercase", the key being the private key's ASCII text). -/
def specPassKey (challenge publicKey password : List Nat) : String :=
  hexOfBytesU (hmacMd5 (strBytes (specPrivateKey challenge publicKey password)) challenge)

/-- Specification-side definition of the per-operation auth header,
following the spec's words: digest = HMAC-MD5 of
`timestamp ‖ '"http://purenetworks.com/HNAP1/' ‖ operation ‖ '"'` under the
private key, hex uppercase; header value = `digest ‖ " " ‖ timestamp`. -/
def specAuthHeader (privateKey operation timestamp : String) : String :=
  hexOfBytesU (hmacMd5 (strBytes privateKey)
    (strBytes (timestamp ++ "\"http://purenetworks.com/HNAP1/" ++ operation ++ "\""))) ++
    " " ++ timestamp

/-- Authentication state of the `SurfboardHNAP` client
(`src/modem_reboot.py` lines 74-96): `privatekey` and `cookie_id` start as
Python `None`. The `requests` session and `host` field carry no logic
relevant to the claims. -/
structure SurfboardHNAPState where
  privatekey : Option String
  cookie_id : Option String
  username : String

/-- Embedding of `SurfboardHNAP.__init__`: both authentication fields start
unset. -/
def initHNAP (username : String) : SurfboardHNAPState :=
  { privatekey := none, cookie_id := none, username := username }

/-- Stateful embedding of `SurfboardHNAP.generate_hnap_auth`: the method
reads `self.privatekey` and calls `.encode()` on it, so when the field is
still `None` (no prior `generate_keys`) the call raises `AttributeError`
instead of returning a header; the raise is modelled as `none`. -/
def generate_hnap_auth_st (st : SurfboardHNAPState) (operation curtime : String) :
    Option String :=
  match st.privatekey with
  | none => none
  | some k => some (generate_hnap_auth k operation curtime)

/-- Stateful embedding of `SurfboardHNAP.generate_keys`: derives the keys
and stores the private key in `self.privatekey`. -/
def generate_keys_st (st : SurfboardHNAPState) (challenge pubkey password : List Nat) :
    SurfboardHNAPState × (String × String) :=
  let keys := generate_keys challenge pubkey password
  ({ st with privatekey := some keys.1 }, keys)

/-- Parsed phase-1 `LoginResponse` fields, each `none` when the key is
absent from the JSON object (Python `dict.get` returning `None`). -/
structure LoginResponse1 where
  cookie : Option String
  publicKey : Option String
  challenge : Option String

/-- Python truthiness test `not x` for an optional string: `None` and the
empty string are falsy. -/
def optFalsy : Option String -> Bool
  | none => true
  | some s => s.isEmpty

/-- Environment of one `SurfboardHNAP.login` call: outcomes of the network
interactions the method performs, in order. `r1_body = none` models a
phase-1 body that is not parseable JSON, `r2_body = none` likewise for
phase 2; `r2_body = some lr2` carries the optional `LoginResult` field. -/
structure LoginEnv where
  reachable : Bool
  htmlOk : Bool
  r1_status : Nat
  r1_body : Option LoginResponse1
  r2_status : Nat
  r2_body : Option (Option String)

/-- Embedding of `SurfboardHNAP.login` (`src/modem_reboot.py` lines
260-326). Returns the truthiness of the Python return value (`True` for
the phase-2 response object, `False` for `None`) together with the client
state after the call; `self.cookie_id` is assigned only in the final
success branch (line 325). -/
def login (env : LoginEnv) (password : String) (st : SurfboardHNAPState) :
    Bool × SurfboardHNAPState :=
  if !env.reachable then (false, st)
  else if !env.htmlOk then (false, st)
  else if env.r1_status != 200 then (false, st)
  else
    match env.r1_body with
    | none => (false, st)
    | some lr =>
      if optFalsy lr.cookie || optFalsy lr.publicKey || optFalsy lr.challenge then (false, st)
      else
        let keys := generate_keys (strBytes (lr.challenge.getD ""))
          (strBytes (lr.publicKey.getD "")) (strBytes password)
        let st1 := { st with privatekey := some keys.1 }
        if env.r2_status != 200 then (false, st1)
        else
          match env.r2_body with
          | none => (false, st1)
          | some lr2 =>
            if lr2 == some "OK" then (true, { st1 with cookie_id := lr.cookie })
            else (false, st1)

/-- Specification-side success condition for `login`: phase 1 must be
reachable, pass the form login, return HTTP 200 with parseable JSON whose
`Cookie`, `PublicKey` and `Challenge` are all present and non-empty, and
phase 2 must return HTTP 200 with parseable JSON whose `LoginResult` is
`"OK"`. -/
def loginSuccessSpec (env : LoginEnv) : Bool :=
  env.reachable && env.htmlOk && (env.r1_status == 200) &&
    (match env.r1_body with
     | none => false
     | some lr =>
       !(optFalsy lr.cookie || optFalsy lr.publicKey || optFalsy lr.challenge) &&
         (env.r2_status == 200) &&
         (match env.r2_body with
          | none => false
          | some lr2 => lr2 == some "OK"))

/-- Loop body of `wait_for_reboot_cycle` (`src/modem_reboot.py` lines
42-61 and identically `src/modem_reboot_improved.py` lines 163-216):
one list element per poll iteration performed inside the
`while time.time() - t_start < max_time_seconds` window, `true` when the
HEAD probe succeeded (modem reachable) and `false` when it raised
`RequestException`. The list ending without a return models the deadline
elapsing (`return False`). -/
def wfrLoop : Bool -> List Bool -> Bool
  | _, [] => false
  | dropDetected, r :: rest =>
    if dropDetected then
      if r then true else wfrLoop true rest
    else
      if !r then wfrLoop true rest else wfrLoop false rest

/-- Embedding of `wait_for_reboot_cycle` over the sequence of poll
outcomes observed within the max-time window: `drop_detected` starts
`False`. -/
def wait_for_reboot_cycle (probes : List Bool) : Bool := wfrLoop false probes

/-- TCP/IP model layers (`src/network_diagnostics.py` lines 19-25). The
Python enum's distinct string values are compared for equality only, so
the constructors stand in for them. -/
inductive NetworkLayer where
  | physical
  | dataLink
  | network
  | transport
  | application
deriving DecidableEq

/-- Fields of `DiagnosticResult` (`src/network_diagnostics.py` lines
27-35) read by `_analyze_reboot_necessity`: the classifier inspects only
`layer`, `test_name` and `success` (never `duration`, `details` or
`error`), so only those are modelled. -/
structure DiagnosticResult where
  layer : NetworkLayer
  test_name : String
  success : Bool
deriving DecidableEq

/-- Python's substring containment `sub in s`. -/
def containsSub (s sub : String) : Bool := decide (sub.toList <:+: s.toList)

/-- Number of failed results in layer `l`: the classifier's
`layer_failures.get(l.value, 0)` after the counting loop
(`src/monitor_internet_improved.py` lines 259-264). -/
def layerFailureCount (results : List DiagnosticResult) (l : NetworkLayer) : Nat :=
  results.countP (fun r => !r.success && decide (r.layer = l))

/-- Python's `l.value in layer_failures` membership test: some failed
result lies in layer `l`. -/
def layerHasFailure (results : List DiagnosticResult) (l : NetworkLayer) : Bool :=
  results.any (fun r => !r.success && decide (r.layer = l))

/-- The classifier's `critical_physical_failures` (lines 273-276): failed
Physical-layer tests whose name does not contain `'Interface
Statistics'`. -/
def criticalPhysicalFailures (results : List DiagnosticResult) : List DiagnosticResult :=
  (results.filter (fun r => decide (r.layer = NetworkLayer.physical) && !r.success)).filter
    (fun f => !containsSub f.test_name "Interface Statistics")

/-- The classifier's `dns_failures` (lines 300-301). -/
def dnsFailures (results : List DiagnosticResult) : List DiagnosticResult :=
  results.filter (fun r => !r.success && containsSub r.test_name "DNS Resolution")

/-- The classifier's `http_failures` (lines 302-303). -/
def httpFailures (results : List DiagnosticResult) : List DiagnosticResult :=
  results.filter (fun r => !r.success && containsSub r.test_name "HTTP Request")

/-- The classifier's `icmp_failures` (lines 321-322). -/
def icmpFailures (results : List DiagnosticResult) : List DiagnosticResult :=
  results.filter (fun r => !r.success && containsSub r.test_name "ICMP Ping")

/-- The classifier's `routing_failures` (lines 323-324). -/
def routingFailures (results : List DiagnosticResult) : List DiagnosticResult :=
  results.filter (fun r => !r.success &&
    (containsSub r.test_name "Routing" || containsSub r.test_name "IP Configuration"))

/-- The classifier's `failed_tests` count (line 338). -/
def failedCount (results : List DiagnosticResult) : Nat :=
  results.countP (fun r => !r.success)

/-- The classifier's `success_rate` (line 339), guarded to 0 when there
are no tests. The Python float division and the comparison against the
literal `0.7` are modelled exactly over the rationals; for result-list
lengths far below `2 ^ 50` the double-precision comparison in the source
agrees with the rational one, the two sides differing only when the exact
ratio lies within the division's rounding error of `0.7`. -/
def successRate (results : List DiagnosticResult) : Rat :=
  if 0 < results.length then
    ((results.length : Rat) - (failedCount results : Rat)) / (results.length : Rat)
  else 0

/-- Embedding of `_analyze_reboot_necessity`
(`src/monitor_internet_improved.py` lines 248-358). The Python early
returns become a right-nested conditional; each nested
`if ...: if ...: return True` pair with shared fall-through is flattened
into a conjunction. Note that the first rule returns `False` only when
`critical_physical_failures` — which filters on `NetworkLayer.PHYSICAL`
only — is non-empty, regardless of the Data-Link half of the guard on
lines 269-270. -/
def analyzeRebootNecessity (results : List DiagnosticResult) : Bool :=
  if (layerHasFailure results NetworkLayer.physical ||
        layerHasFailure results NetworkLayer.dataLink) &&
      !(criticalPhysicalFailures results).isEmpty then
    false
  else if 0 < layerFailureCount results NetworkLayer.application &&
      layerFailureCount results NetworkLayer.transport = 0 &&
      layerFailureCount results NetworkLayer.network = 0 &&
      0 < (dnsFailures results).length && (httpFailures results).length = 0 then
    true
  else if 0 < layerFailureCount results NetworkLayer.transport then
    true
  else if 0 < layerFailureCount results NetworkLayer.network &&
      (2 < (icmpFailures results).length || 0 < (routingFailures results).length) then
    true
  else if 7 / 10 < successRate results then
    false
  else
    true

/-- Supervisor loop state (`src/monitor_internet_improved.py` lines
661-664): the consecutive-failure counter, the start time of the current
outage when one is in progress, and the accumulated outage seconds.
Timestamps and durations are modelled as `Nat` seconds. -/
structure SupervisorState where
  failure_count : Nat
  outage_start_time : Option Nat
  total_outage_duration : Nat
deriving DecidableEq

/-- Initial supervisor state (lines 661-664): counter 0, no outage, zero
accumulated duration. -/
def initSupervisor : SupervisorState :=
  { failure_count := 0, outage_start_time := none, total_outage_duration := 0 }

/-- Inputs consumed by one iteration of the supervisor `while True` loop:
the connectivity probe outcome (`check_internet`), the wall-clock time of
the iteration, and — consulted only when the failure threshold is
reached — the diagnostics verdict (including its conservative timeout and
error defaults) and the outcome of `reboot_modem`. -/
structure CycleInput where
  up : Bool
  now : Nat
  shouldReboot : Bool
  rebootOk : Bool
deriving DecidableEq

/-- One iteration of the supervisor loop
(`src/monitor_internet_improved.py` lines 697-909); `threshold` is
`FAILURE_THRESHOLD` and `diagnostics` is `ENABLE_DIAGNOSTICS`. On UP the
outage (when one is open) is closed, its duration accumulated, and the
counter reset (lines 705-734); on DOWN the outage start is recorded when
absent and the counter incremented (lines 738-759); reaching the threshold
evaluates diagnostics/reboot, whose only state effects are on the counter:
0 after a successful reboot (lines 844, 901), unchanged after a failed
reboot (lines 847-852, 904-909), `threshold - 1` when diagnostics advise
against rebooting (line 864). The diagnostics-disabled branch (lines
869-909) is the logic of `src/monitor_internet.py` lines 207-228. -/
def supervisorStep (threshold : Nat) (diagnostics : Bool)
    (s : SupervisorState) (c : CycleInput) : SupervisorState :=
  if c.up then
    { failure_count := 0
      outage_start_time := none
      total_outage_duration := s.total_outage_duration +
        (match s.outage_start_time with
         | some t0 => c.now - t0
         | none => 0) }
  else
    let ost := some (s.outage_start_time.getD c.now)
    let fc := s.failure_count + 1
    let fc' :=
      if threshold <= fc then
        if diagnostics then
          if c.shouldReboot then
            if c.rebootOk then 0 else fc
          else threshold - 1
        else
          if c.rebootOk then 0 else fc
      else fc
    { failure_count := fc', outage_start_time := ost,
      total_outage_duration := s.total_outage_duration }

/-- Iterated supervisor loop over a list of cycle inputs. -/
def runSupervisor (threshold : Nat) (diagnostics : Bool)
    (s : SupervisorState) (trace : List CycleInput) : SupervisorState :=
  trace.foldl (supervisorStep threshold diagnostics) s

/-- Whether an iteration reaches the diagnostics/reboot evaluation
(line 772, `if failure_count >= FAILURE_THRESHOLD` after the increment):
the probe must be DOWN and the incremented counter must reach the
threshold. -/
def triggersEscalation (threshold : Nat) (s : SupervisorState) (c : CycleInput) : Bool :=
  !c.up && decide (threshold <= s.failure_count + 1)

/-- Embedding of the `KeyboardInterrupt` handler's final accounting
(`src/monitor_internet_improved.py` lines 925-937): when an outage is
still open at interruption time `now`, its partial duration is folded into
the total exactly once. -/
def finalizeOutage (s : SupervisorState) (now : Nat) : Nat :=
  s.total_outage_duration +
    (match s.outage_start_time with
     | some t0 => now - t0
     | none => 0)

/-- Specification-side outage accounting over a timed probe trace: the sum
of the durations of completed DOWN-to-UP transitions, an outage open at
the start being described by `cur`. Each completed outage contributes
`resolution time - start time` exactly once, and an outage still open at
the end of the trace contributes nothing. -/
def outageSum (cur : Option Nat) : List CycleInput -> Nat
  | [] => 0
  | c :: rest =>
    if c.up then
      (match cur with
       | some t0 => c.now - t0
       | none => 0) + outageSum none rest
    else
      outageSum (some (cur.getD c.now)) rest

/-- Length of the maximal all-DOWN suffix of a trace: the number of
consecutive DOWN probes immediately preceding the present moment. -/
def consecDowns (trace : List CycleInput) : Nat :=
  (trace.reverse.takeWhile (fun c => !c.up)).length

/-- A virtual UP observation at time `T`, used to state that interrupting
the supervisor closes the open outage the same way an UP probe at `T`
would. -/
def upObservation (T : Nat) : CycleInput :=
  { up := true, now := T, shouldReboot := false, rebootOk := false }

end Watchdog

namespace Watchdog

/-! Helper lemmas shared by the claim theorems. -/

/-- Uppercasing a lowercase hex digit yields the uppercase hex digit. -/
theorem toUpper_hexChar (n : Nat) : (hexChar n).toUpper = hexCharU n := by
  rcases Nat.lt_or_ge n 16 with h | h
  · have hball : ∀ m : Nat, m < 16 → (hexChar m).toUpper = hexCharU m := by decide
    exact hball n h
  · have h1 : hexChar n = '0' := by
      apply List.getD_eq_default
      simpa using h
    have h2 : hexCharU n = '0' := by
      apply List.getD_eq_default
      simpa using h
    rw [h1, h2]
    decide

/-- Uppercasing the lowercase hex rendering of a byte list gives the
uppercase hex rendering. -/
theorem strUpper_hexOfBytes (bs : List Nat) : strUpper (hexOfBytes bs) = hexOfBytesU bs := by
  unfold strUpper hexOfBytes hexOfBytesU
  congr 1
  simp [List.map_flatten, List.map_map, Function.comp_def, toUpper_hexChar]

/-- With a drop already detected, the detector succeeds exactly when some
remaining poll sees the modem reachable. -/
theorem wfrLoop_true_eq_any (ps : List Bool) : wfrLoop true ps = ps.any id := by
  induction ps with
  | nil => rfl
  | cons r rest ih => cases r <;> simp [wfrLoop, ih]

/-- Full characterization of the reboot-cycle detector from the initial
state: it succeeds exactly when some poll sees the modem down and a
strictly later poll sees it up. -/
theorem wfrLoop_false_iff (ps : List Bool) :
    wfrLoop false ps = true ↔
      ∃ i j : Nat, i < j ∧ ps[i]? = some false ∧ ps[j]? = some true := by
  induction ps with
  | nil => simp [wfrLoop]
  | cons r rest ih =>
    cases r with
    | true =>
      rw [show wfrLoop false (true :: rest) = wfrLoop false rest from rfl, ih]
      constructor
      · rintro ⟨i, j, hij, hi, hj⟩
        exact ⟨i + 1, j + 1, by omega, by simpa using hi, by simpa using hj⟩
      · rintro ⟨i, j, hij, hi, hj⟩
        cases i with
        | zero => simp at hi
        | succ i' =>
          cases j with
          | zero => omega
          | succ j' => exact ⟨i', j', by omega, by simpa using hi, by simpa using hj⟩
    | false =>
      rw [show wfrLoop false (false :: rest) = wfrLoop true rest from rfl,
        wfrLoop_true_eq_any]
      constructor
      · intro h
        obtain ⟨x, hx, hxt⟩ := List.any_eq_true.mp h
        have hxval : x = true := by simpa using hxt
        subst hxval
        obtain ⟨⟨j, hlt⟩, hj⟩ := List.get_of_mem hx
        refine ⟨0, j + 1, Nat.succ_pos j, by simp, ?_⟩
        simpa [List.getElem?_eq_getElem hlt] using hj
      · rintro ⟨i, j, hij, hi, hj⟩
        cases j with
        | zero => omega
        | succ j' =>
          have hj' : rest[j']? = some true := by simpa using hj
          have hmem : true ∈ rest := by
            have := List.getElem?_eq_some.mp hj'
            obtain ⟨hlt, hval⟩ := this
            exact hval ▸ List.getElem_mem hlt
          exact List.any_eq_true.mpr ⟨true, hmem, rfl⟩

end Watchdog

set_option maxRecDepth 10000 in
/-- C4: `generate_keys(challenge, pubkey, password)` is a pure
deterministic function (in this embedding it is a Lean function of exactly
its three arguments, so identical inputs give identical outputs by
construction): it returns `privateKey` = HMAC-MD5 with key
`pubkey ++ password` and message `challenge`, hex-encoded uppercase, and
`passKey` = HMAC-MD5 with key the ASCII text of `privateKey` and message
`challenge`, hex-encoded uppercase. The second conjunct is a known-answer
check computed with Python's `hmac`/`hashlib` reference implementation. -/
theorem Watchdog.generate_keys_matches_spec :
    (∀ challenge publicKey password : List Nat,
      Watchdog.generate_keys challenge publicKey password =
        (Watchdog.specPrivateKey challenge publicKey password,
          Watchdog.specPassKey challenge publicKey password)) ∧
    Watchdog.generate_keys (Watchdog.strBytes "CHAL123") (Watchdog.strBytes "PUBKEY")
        (Watchdog.strBytes "motorola") =
      ("AF33B53B02463F0AA57AA01121CB1265", "648ADB8EF8A5D7C6C3BCB563B358CC19") := by
  constructor
  · intro c p w
    simp [Watchdog.generate_keys, Watchdog.specPrivateKey, Watchdog.specPassKey,
      Watchdog.strUpper_hexOfBytes]
  · decide

set_option maxRecDepth 10000 in
/-- C5: for a fixed `(privateKey, operation, timestamp)` triple the auth
header equals the HMAC-MD5 digest of
`timestamp ++ quote ++ "http://purenetworks.com/HNAP1/" ++ operation ++ quote`
under key `privateKey`, hex-encoded uppercase, followed by one space and
the timestamp; being a function of the triple, the digest is reproducible.
The second conjunct is a known-answer check computed with Python's
`hmac`/`hashlib` reference implementation. -/
theorem Watchdog.generate_hnap_auth_matches_spec :
    (∀ privateKey operation timestamp : String,
      Watchdog.generate_hnap_auth privateKey operation timestamp =
        Watchdog.specAuthHeader privateKey operation timestamp) ∧
    Watchdog.generate_hnap_auth "AF33B53B02463F0AA57AA01121CB1265" "Login" "1700000000000" =
      "2B3A5103BEF7C51EC86426DA5F804996 1700000000000" := by
  constructor
  · intro pk op ts
    simp [Watchdog.generate_hnap_auth, Watchdog.specAuthHeader,
      Watchdog.strUpper_hexOfBytes]
  · decide

/-- C9: a freshly constructed client has `privatekey = None`, and calling
`generate_hnap_auth` on it raises (modelled as `none`) rather than
returning a header, for every operation and timestamp; after
`generate_keys` has run, the private key is set and every such call
returns a header. A non-`None` private key is thus a precondition for
producing any auth header (and hence for the signed `reboot`,
`get_status` and phase-2 login requests, which all call
`generate_hnap_auth`). -/
theorem Watchdog.auth_header_requires_privatekey :
    (∀ username, (Watchdog.initHNAP username).privatekey = none) ∧
    (∀ username operation curtime,
      Watchdog.generate_hnap_auth_st (Watchdog.initHNAP username) operation curtime = none) ∧
    (∀ st challenge pubkey password operation curtime,
      (Watchdog.generate_hnap_auth_st
        (Watchdog.generate_keys_st st challenge pubkey password).1 operation curtime).isSome =
        true) :=
  ⟨fun _ => rfl, fun _ _ _ => rfl, fun _ _ _ _ _ _ => rfl⟩

/-- C3: the reboot-cycle detector returns success exactly when, within the
polling window (the list of poll outcomes observed before the
`max_time_seconds` deadline), some poll observes the device unreachable
and a strictly later poll observes it reachable; in particular the probe
sequences UP-DOWN-DOWN-UP and DOWN-UP succeed, while an all-UP window of
any length fails. -/
theorem Watchdog.wait_for_reboot_cycle_spec :
    (∀ probes : List Bool,
      Watchdog.wait_for_reboot_cycle probes = true ↔
        ∃ i j : Nat, i < j ∧ probes[i]? = some false ∧ probes[j]? = some true) ∧
    Watchdog.wait_for_reboot_cycle [true, false, false, true] = true ∧
    Watchdog.wait_for_reboot_cycle [false, true] = true ∧
    (∀ n, Watchdog.wait_for_reboot_cycle (List.replicate n true) = false) := by
  refine ⟨Watchdog.wfrLoop_false_iff, rfl, rfl, fun n => ?_⟩
  induction n with
  | zero => rfl
  | succ m ih =>
    simpa [Watchdog.wait_for_reboot_cycle, Watchdog.wfrLoop, List.replicate_succ] using ih

/-- C6: the truthiness of `login`'s return value is exactly the
specification-side success condition — in particular the call returns
`None` whenever the phase-1 body is unparseable or `Cookie`, `PublicKey`
or `Challenge` is missing or empty, and it succeeds only when phase 2
returns HTTP 200 with `LoginResult = "OK"` — and `self.cookie_id` is
assigned (to the phase-1 `Cookie`) exactly on full success, staying at its
previous value in every failure case. -/
theorem Watchdog.login_success_characterization :
    ∀ (env : Watchdog.LoginEnv) (password : String) (st : Watchdog.SurfboardHNAPState),
      ((Watchdog.login env password st).1 = Watchdog.loginSuccessSpec env) ∧
      ((Watchdog.login env password st).2.cookie_id =
        if (Watchdog.login env password st).1 = true then
          env.r1_body.bind Watchdog.LoginResponse1.cookie
        else st.cookie_id) := by
  intro env password st
  obtain ⟨reach, html, s1, b1, s2, b2⟩ := env
  cases reach with
  | false => simp [Watchdog.login, Watchdog.loginSuccessSpec]
  | true =>
    cases html with
    | false => simp [Watchdog.login, Watchdog.loginSuccessSpec]
    | true =>
      by_cases h1 : s1 = 200
      · subst h1
        rcases b1 with _ | lr
        · simp [Watchdog.login, Watchdog.loginSuccessSpec]
        · by_cases hf : (Watchdog.optFalsy lr.cookie || Watchdog.optFalsy lr.publicKey ||
              Watchdog.optFalsy lr.challenge) = true
          · simp [Watchdog.login, Watchdog.loginSuccessSpec, hf]
          · rw [Bool.not_eq_true] at hf
            by_cases h2 : s2 = 200
            · subst h2
              rcases b2 with _ | lr2
              · simp [Watchdog.login, Watchdog.loginSuccessSpec, hf]
              · by_cases hok : lr2 = some "OK"
                · subst hok
                  simp [Watchdog.login, Watchdog.loginSuccessSpec, hf]
                · simp [Watchdog.login, Watchdog.loginSuccessSpec, hf, hok]
            · simp [Watchdog.login, Watchdog.loginSuccessSpec, hf, h2]
      · simp [Watchdog.login, Watchdog.loginSuccessSpec, h1]

/-- C1 (amended): whenever the Physical layer contains a failing test
whose name does not contain the substring `"Interface Statistics"`, the
classifier returns `false` regardless of failures in any other layer. (The
original claim also asserted this for Data-Link-layer failures, but
`critical_physical_failures` filters on `NetworkLayer.PHYSICAL` only, so a
Data-Link-only critical failure does not take this branch.) -/
theorem Watchdog.critical_physical_failure_blocks_reboot :
    ∀ (results : List Watchdog.DiagnosticResult) (r : Watchdog.DiagnosticResult),
      r ∈ results → r.layer = Watchdog.NetworkLayer.physical → r.success = false →
      Watchdog.containsSub r.test_name "Interface Statistics" = false →
      Watchdog.analyzeRebootNecessity results = false := by
  intro results r hmem hlayer hfail hname
  have hphys : Watchdog.layerHasFailure results Watchdog.NetworkLayer.physical = true :=
    List.any_eq_true.mpr ⟨r, hmem, by simp [hfail, hlayer]⟩
  have hcrit : r ∈ Watchdog.criticalPhysicalFailures results :=
    List.mem_filter.mpr
      ⟨List.mem_filter.mpr ⟨hmem, by simp [hfail, hlayer]⟩, by simp [hname]⟩
  have hne : (Watchdog.criticalPhysicalFailures results).isEmpty = false := by
    cases hl : Watchdog.criticalPhysicalFailures results with
    | nil => rw [hl] at hcrit; simp at hcrit
    | cons a l => rfl
  simp [Watchdog.analyzeRebootNecessity, hphys, hne]

/-- C1 witness: a single failing Physical-layer interface check makes the
classifier refuse the reboot. -/
theorem Watchdog.critical_physical_failure_blocks_reboot_witness :
    Watchdog.analyzeRebootNecessity
      [{ layer := Watchdog.NetworkLayer.physical, test_name := "Network Interfaces",
          success := false }] = false :=
  Watchdog.critical_physical_failure_blocks_reboot
    [{ layer := Watchdog.NetworkLayer.physical, test_name := "Network Interfaces",
        success := false }]
    { layer := Watchdog.NetworkLayer.physical, test_name := "Network Interfaces",
        success := false }
    (by simp) rfl rfl (by decide)

/-- C1 counterexample: a diagnostic run whose only failure is a Data-Link
layer test (named `"ARP Table"`, which does not contain
`"Interface Statistics"`) satisfies the claim's premise, yet the
classifier returns `true`, not the claimed `false`: the failure falls
through every rule to the conservative default. -/
theorem Watchdog.dataLink_failure_counterexample :
    Watchdog.analyzeRebootNecessity
        [{ layer := Watchdog.NetworkLayer.dataLink, test_name := "ARP Table",
            success := false }] = true ∧
      Watchdog.containsSub "ARP Table" "Interface Statistics" = false := by
  constructor
  · have hphys : Watchdog.layerHasFailure
        [{ layer := Watchdog.NetworkLayer.dataLink, test_name := "ARP Table",
            success := false }] Watchdog.NetworkLayer.physical = false := by decide
    have hdl : Watchdog.layerHasFailure
        [{ layer := Watchdog.NetworkLayer.dataLink, test_name := "ARP Table",
            success := false }] Watchdog.NetworkLayer.dataLink = true := by decide
    have hcrit : (Watchdog.criticalPhysicalFailures
        [{ layer := Watchdog.NetworkLayer.dataLink, test_name := "ARP Table",
            success := false }]).isEmpty = true := by decide
    have happ : Watchdog.layerFailureCount
        [{ layer := Watchdog.NetworkLayer.dataLink, test_name := "ARP Table",
            success := false }] Watchdog.NetworkLayer.application = 0 := by decide
    have htr : Watchdog.layerFailureCount
        [{ layer := Watchdog.NetworkLayer.dataLink, test_name := "ARP Table",
            success := false }] Watchdog.NetworkLayer.transport = 0 := by decide
    have hnet : Watchdog.layerFailureCount
        [{ layer := Watchdog.NetworkLayer.dataLink, test_name := "ARP Table",
            success := false }] Watchdog.NetworkLayer.network = 0 := by decide
    have hfc : Watchdog.failedCount
        [{ layer := Watchdog.NetworkLayer.dataLink, test_name := "ARP Table",
            success := false }] = 1 := by decide
    have hrate : Watchdog.successRate
        [{ layer := Watchdog.NetworkLayer.dataLink, test_name := "ARP Table",
            success := false }] = 0 := by
      unfold Watchdog.successRate
      rw [hfc]
      norm_num
    unfold Watchdog.analyzeRebootNecessity
    rw [hphys, hdl, hcrit, happ, htr, hnet, hrate]
    norm_num
  · decide

/-- C2: when every failing test is an Application-layer test, at least one
failing test is a DNS-resolution test and no failing test is an
HTTP-request test, the classifier returns `true` with no assumption on the
overall success rate, so the DNS-only rule takes priority over the
70-percent success-rate rule; concretely, a run of five tests whose only
failure is one Application-layer DNS-resolution test has success rate
4/5 — above the 70-percent bar — and is still classified `true`. -/
theorem Watchdog.dns_only_failures_reboot :
    (∀ results : List Watchdog.DiagnosticResult,
      (∀ r ∈ results, r.success = false → r.layer = Watchdog.NetworkLayer.application) →
      (∃ r ∈ results, r.success = false ∧
        Watchdog.containsSub r.test_name "DNS Resolution" = true) →
      (∀ r ∈ results, r.success = false →
        Watchdog.containsSub r.test_name "HTTP Request" = false) →
      Watchdog.analyzeRebootNecessity results = true) ∧
    (7 : Rat) / 10 < Watchdog.successRate
      [{ layer := Watchdog.NetworkLayer.physical, test_name := "Network Interfaces",
          success := true },
        { layer := Watchdog.NetworkLayer.network, test_name := "ICMP Ping (Gateway)",
          success := true },
        { layer := Watchdog.NetworkLayer.transport, test_name := "TCP Connection (Modem HTTPS)",
          success := true },
        { layer := Watchdog.NetworkLayer.application, test_name := "HTTP Request (Google)",
          success := true },
        { layer := Watchdog.NetworkLayer.application, test_name := "DNS Resolution (google.com)",
          success := false }] := by
  have main : ∀ results : List Watchdog.DiagnosticResult,
      (∀ r ∈ results, r.success = false → r.layer = Watchdog.NetworkLayer.application) →
      (∃ r ∈ results, r.success = false ∧
        Watchdog.containsSub r.test_name "DNS Resolution" = true) →
      (∀ r ∈ results, r.success = false →
        Watchdog.containsSub r.test_name "HTTP Request" = false) →
      Watchdog.analyzeRebootNecessity results = true := by
    intro results hApp hDns hHttp
    obtain ⟨rd, hrd, hrdFail, hrdName⟩ := hDns
    have hphys : Watchdog.layerHasFailure results Watchdog.NetworkLayer.physical = false := by
      simp only [Watchdog.layerHasFailure, List.any_eq_false]
      intro r hr
      cases hsucc : r.success with
      | true => simp [hsucc]
      | false => simp [hsucc, hApp r hr hsucc]
    have hdl : Watchdog.layerHasFailure results Watchdog.NetworkLayer.dataLink = false := by
      simp only [Watchdog.layerHasFailure, List.any_eq_false]
      intro r hr
      cases hsucc : r.success with
      | true => simp [hsucc]
      | false => simp [hsucc, hApp r hr hsucc]
    have happ : 0 < Watchdog.layerFailureCount results Watchdog.NetworkLayer.application :=
      List.countP_pos_iff.mpr ⟨rd, hrd, by simp [hrdFail, hApp rd hrd hrdFail]⟩
    have htrans : Watchdog.layerFailureCount results Watchdog.NetworkLayer.transport = 0 := by
      apply List.countP_eq_zero.mpr
      intro r hr
      cases hsucc : r.success with
      | true => simp [hsucc]
      | false => simp [hsucc, hApp r hr hsucc]
    have hnet : Watchdog.layerFailureCount results Watchdog.NetworkLayer.network = 0 := by
      apply List.countP_eq_zero.mpr
      intro r hr
      cases hsucc : r.success with
      | true => simp [hsucc]
      | false => simp [hsucc, hApp r hr hsucc]
    have hdnsLen : 0 < (Watchdog.dnsFailures results).length := by
      apply List.length_pos.mpr
      apply List.ne_nil_of_mem (a := rd)
      exact List.mem_filter.mpr ⟨hrd, by simp [hrdFail, hrdName]⟩
    have hhttpLen : (Watchdog.httpFailures results).length = 0 := by
      apply List.length_eq_zero.mpr
      apply List.filter_eq_nil_iff.mpr
      intro r hr
      cases hsucc : r.success with
      | true => simp [hsucc]
      | false => simp [hsucc, hHttp r hr hsucc]
    unfold Watchdog.analyzeRebootNecessity
    rw [hphys, hdl]
    simp [happ, htrans, hnet, hdnsLen, hhttpLen]
  refine ⟨main, ?_⟩
  have hfc : Watchdog.failedCount
      [{ layer := Watchdog.NetworkLayer.physical, test_name := "Network Interfaces",
          success := true },
        { layer := Watchdog.NetworkLayer.network, test_name := "ICMP Ping (Gateway)",
          success := true },
        { layer := Watchdog.NetworkLayer.transport, test_name := "TCP Connection (Modem HTTPS)",
          success := true },
        { layer := Watchdog.NetworkLayer.application, test_name := "HTTP Request (Google)",
          success := true },
        { layer := Watchdog.NetworkLayer.application, test_name := "DNS Resolution (google.com)",
          success := false }] = 1 := by decide
  unfold Watchdog.successRate
  rw [hfc]
  norm_num

/-- C2 witness: the same five-test run with a single failing DNS test,
passed through the general DNS-only rule. -/
theorem Watchdog.dns_only_failures_reboot_witness :
    Watchdog.analyzeRebootNecessity
      [{ layer := Watchdog.NetworkLayer.physical, test_name := "Network Interfaces",
          success := true },
        { layer := Watchdog.NetworkLayer.network, test_name := "ICMP Ping (Gateway)",
          success := true },
        { layer := Watchdog.NetworkLayer.transport, test_name := "TCP Connection (Modem HTTPS)",
          success := true },
        { layer := Watchdog.NetworkLayer.application, test_name := "HTTP Request (Google)",
          success := true },
        { layer := Watchdog.NetworkLayer.application, test_name := "DNS Resolution (google.com)",
          success := false }] = true :=
  Watchdog.dns_only_failures_reboot.1 _ (by decide) (by decide) (by decide)

/-- C10: on an empty diagnostic result sequence the success rate is the
guarded value 0 (no division by zero is attempted), no rule matches, and
the classifier returns the conservative default `true`. -/
theorem Watchdog.empty_results_conservative_default :
    Watchdog.analyzeRebootNecessity [] = true ∧ Watchdog.successRate [] = 0 := by
  have hrate : Watchdog.successRate [] = 0 := rfl
  refine ⟨?_, hrate⟩
  unfold Watchdog.analyzeRebootNecessity
  rw [hrate]
  norm_num [Watchdog.layerHasFailure, Watchdog.layerFailureCount,
    Watchdog.criticalPhysicalFailures, Watchdog.dnsFailures, Watchdog.httpFailures,
    Watchdog.icmpFailures, Watchdog.routingFailures]

namespace Watchdog

/-! Supervisor loop lemmas. -/

/-- After any loop iteration, an outage is open exactly when the probe of
that iteration reported DOWN. -/
theorem supervisorStep_outage_isSome (threshold : Nat) (diagnostics : Bool)
    (s : SupervisorState) (c : CycleInput) :
    ((supervisorStep threshold diagnostics s c).outage_start_time).isSome = !c.up := by
  cases hc : c.up <;> simp [supervisorStep, hc]

/-- The supervisor's accumulated outage duration equals the starting total
plus the specification-side outage sum of the consumed trace. -/
theorem runSupervisor_total (threshold : Nat) (diagnostics : Bool) :
    ∀ (tr : List CycleInput) (s : SupervisorState),
      (runSupervisor threshold diagnostics s tr).total_outage_duration =
        s.total_outage_duration + outageSum s.outage_start_time tr := by
  intro tr
  induction tr with
  | nil => intro s; simp [runSupervisor, outageSum]
  | cons c rest ih =>
    intro s
    rw [show runSupervisor threshold diagnostics s (c :: rest) =
        runSupervisor threshold diagnostics (supervisorStep threshold diagnostics s c) rest
      from rfl, ih]
    cases hc : c.up with
    | true => simp [supervisorStep, outageSum, hc, Nat.add_assoc]
    | false => simp [supervisorStep, outageSum, hc]

/-- One loop iteration never decreases the accumulated outage duration. -/
theorem supervisorStep_total_mono (threshold : Nat) (diagnostics : Bool)
    (s : SupervisorState) (c : CycleInput) :
    s.total_outage_duration ≤ (supervisorStep threshold diagnostics s c).total_outage_duration := by
  cases hc : c.up with
  | false => simp [supervisorStep, hc]
  | true => cases ho : s.outage_start_time <;> simp [supervisorStep, hc, ho]

/-- Over a whole trace, an outage is open exactly when the last probe
reported DOWN (falling back to the initial state on an empty trace). -/
theorem runSupervisor_outage_isSome (threshold : Nat) (diagnostics : Bool) :
    ∀ (tr : List CycleInput) (s : SupervisorState),
      ((runSupervisor threshold diagnostics s tr).outage_start_time).isSome =
        ((tr.getLast?.map (fun c => !c.up)).getD s.outage_start_time.isSome) := by
  intro tr
  induction tr with
  | nil => intro s; simp [runSupervisor]
  | cons c rest ih =>
    intro s
    rw [show runSupervisor threshold diagnostics s (c :: rest) =
        runSupervisor threshold diagnostics (supervisorStep threshold diagnostics s c) rest
      from rfl, ih]
    cases rest with
    | nil => simp [supervisorStep_outage_isSome]
    | cons c2 rest2 =>
      cases h : (c2 :: rest2).getLast? with
      | none => simp at h
      | some a => simp [h]

/-- Running a trace extended by one input takes one more step. -/
theorem runSupervisor_append_singleton (threshold : Nat) (diagnostics : Bool)
    (s : SupervisorState) (tr : List CycleInput) (c : CycleInput) :
    runSupervisor threshold diagnostics s (tr ++ [c]) =
      supervisorStep threshold diagnostics (runSupervisor threshold diagnostics s tr) c := by
  simp [runSupervisor, List.foldl_append]

/-- A DOWN probe extends the trailing DOWN run by one. -/
theorem consecDowns_append_down (tr : List CycleInput) (c : CycleInput) (hc : c.up = false) :
    consecDowns (tr ++ [c]) = consecDowns tr + 1 := by
  simp [consecDowns, List.reverse_append, List.takeWhile_cons, hc]

/-- An UP probe empties the trailing DOWN run. -/
theorem consecDowns_append_up (tr : List CycleInput) (c : CycleInput) (hc : c.up = true) :
    consecDowns (tr ++ [c]) = 0 := by
  simp [consecDowns, List.reverse_append, List.takeWhile_cons, hc]

/-- On a DOWN probe the counter grows by at most one, whichever
threshold branch runs. -/
theorem supervisorStep_fc_le (threshold : Nat) (diagnostics : Bool)
    (s : SupervisorState) (c : CycleInput) (hc : c.up = false) :
    (supervisorStep threshold diagnostics s c).failure_count ≤ s.failure_count + 1 := by
  simp only [supervisorStep, hc, Bool.false_eq_true, if_false]
  repeat' split
  all_goals omega

/-- Invariant: the consecutive-failure counter never exceeds the number of
trailing consecutive DOWN probes. -/
theorem runSupervisor_fc_le_consecDowns (threshold : Nat) (diagnostics : Bool) :
    ∀ tr : List CycleInput,
      (runSupervisor threshold diagnostics initSupervisor tr).failure_count ≤ consecDowns tr := by
  intro tr
  induction tr using List.reverseRecOn with
  | nil => simp [runSupervisor, initSupervisor, consecDowns]
  | append_singleton tr c ih =>
    rw [runSupervisor_append_singleton]
    cases hc : c.up with
    | true => simp [supervisorStep, hc, consecDowns_append_up tr c hc]
    | false =>
      rw [consecDowns_append_down tr c hc]
      exact le_trans (supervisorStep_fc_le threshold diagnostics _ c hc)
        (Nat.succ_le_succ ih)

end Watchdog

/-- C7: over every trace from the initial supervisor state and for every
threshold and diagnostics setting, (1) an outage start time is recorded
exactly when the most recent probe reported DOWN and no resolution has
occurred (an UP resolves and clears it in the same iteration), (2) the
accumulated outage duration equals the specification-side sum of the
durations of completed DOWN-to-UP transitions, each counted exactly once
and excluding any outage still open, (3) the accumulated duration never
decreases at any step, and (4) interrupting at time `T` folds the open
outage's partial duration in exactly once — the final total equals the
outage sum of the trace closed by a virtual UP observation at `T`. -/
theorem Watchdog.outage_accounting_invariant :
    ∀ (threshold : Nat) (diagnostics : Bool) (tr : List Watchdog.CycleInput) (T : Nat),
      (((Watchdog.runSupervisor threshold diagnostics Watchdog.initSupervisor
          tr).outage_start_time).isSome =
        ((tr.getLast?.map (fun c => !c.up)).getD false)) ∧
      ((Watchdog.runSupervisor threshold diagnostics Watchdog.initSupervisor
          tr).total_outage_duration = Watchdog.outageSum none tr) ∧
      (∀ (s : Watchdog.SupervisorState) (c : Watchdog.CycleInput),
        s.total_outage_duration ≤
          (Watchdog.supervisorStep threshold diagnostics s c).total_outage_duration) ∧
      (Watchdog.finalizeOutage
          (Watchdog.runSupervisor threshold diagnostics Watchdog.initSupervisor tr) T =
        Watchdog.outageSum none (tr ++ [Watchdog.upObservation T])) := by
  intro threshold diagnostics tr T
  refine ⟨?_, ?_, Watchdog.supervisorStep_total_mono threshold diagnostics, ?_⟩
  · simpa [Watchdog.initSupervisor] using
      Watchdog.runSupervisor_outage_isSome threshold diagnostics tr Watchdog.initSupervisor
  · simpa [Watchdog.initSupervisor] using
      Watchdog.runSupervisor_total threshold diagnostics tr Watchdog.initSupervisor
  · have h1 : Watchdog.finalizeOutage
        (Watchdog.runSupervisor threshold diagnostics Watchdog.initSupervisor tr) T =
        (Watchdog.runSupervisor threshold diagnostics Watchdog.initSupervisor
          (tr ++ [Watchdog.upObservation T])).total_outage_duration := by
      rw [Watchdog.runSupervisor_append_singleton]
      rfl
    rw [h1]
    simpa [Watchdog.initSupervisor] using
      Watchdog.runSupervisor_total threshold diagnostics
        (tr ++ [Watchdog.upObservation T]) Watchdog.initSupervisor

/-- C8: with `failureThreshold = 3`, (1) any UP probe resets the
consecutive-failure counter to 0, delaying escalation, (2) an iteration
reaches the diagnostics/reboot evaluation only when at least the last 3
probes, the current one included, were consecutively DOWN — never after
fewer — and (3) starting from the initial state, three consecutive DOWN
probes leave the first two iterations below the threshold and trigger the
evaluation exactly on the third. -/
theorem Watchdog.failure_threshold_escalation :
    (∀ (diagnostics : Bool) (s : Watchdog.SupervisorState) (n : Nat) (sr ro : Bool),
      (Watchdog.supervisorStep 3 diagnostics s
        { up := true, now := n, shouldReboot := sr, rebootOk := ro }).failure_count = 0) ∧
    (∀ (diagnostics : Bool) (tr : List Watchdog.CycleInput) (c : Watchdog.CycleInput),
      Watchdog.triggersEscalation 3
          (Watchdog.runSupervisor 3 diagnostics Watchdog.initSupervisor tr) c = true →
      3 ≤ Watchdog.consecDowns (tr ++ [c])) ∧
    (∀ (diagnostics : Bool) (n1 n2 n3 : Nat) (sr1 ro1 sr2 ro2 sr3 ro3 : Bool),
      Watchdog.triggersEscalation 3 Watchdog.initSupervisor
          { up := false, now := n1, shouldReboot := sr1, rebootOk := ro1 } = false ∧
      Watchdog.triggersEscalation 3
          (Watchdog.runSupervisor 3 diagnostics Watchdog.initSupervisor
            [{ up := false, now := n1, shouldReboot := sr1, rebootOk := ro1 }])
          { up := false, now := n2, shouldReboot := sr2, rebootOk := ro2 } = false ∧
      Watchdog.triggersEscalation 3
          (Watchdog.runSupervisor 3 diagnostics Watchdog.initSupervisor
            [{ up := false, now := n1, shouldReboot := sr1, rebootOk := ro1 },
              { up := false, now := n2, shouldReboot := sr2, rebootOk := ro2 }])
          { up := false, now := n3, shouldReboot := sr3, rebootOk := ro3 } = true) := by
  refine ⟨?_, ?_, ?_⟩
  · intro diagnostics s n sr ro
    rfl
  · intro diagnostics tr c htrig
    have hand := htrig
    unfold Watchdog.triggersEscalation at hand
    rw [Bool.and_eq_true] at hand
    obtain ⟨hup, hfc⟩ := hand
    have hup' : c.up = false := by
      cases hcu : c.up
      · rfl
      · rw [hcu] at hup; simp at hup
    have hfc' : 3 ≤ (Watchdog.runSupervisor 3 diagnostics Watchdog.initSupervisor
        tr).failure_count + 1 := of_decide_eq_true hfc
    have hinv := Watchdog.runSupervisor_fc_le_consecDowns 3 diagnostics tr
    rw [Watchdog.consecDowns_append_down tr c hup']
    omega
  · intro diagnostics n1 n2 n3 sr1 ro1 sr2 ro2 sr3 ro3
    refine ⟨rfl, ?_, ?_⟩ <;>
      simp [Watchdog.triggersEscalation, Watchdog.runSupervisor, Watchdog.supervisorStep,
        Watchdog.initSupervisor]

/-- C8 witness: three consecutive DOWN observations do make up a trailing
DOWN run of length 3; obtained by instantiating the escalation bound at a
concrete all-DOWN trace. -/
theorem Watchdog.failure_threshold_escalation_witness :
    3 ≤ Watchdog.consecDowns
      ([{ up := false, now := 10, shouldReboot := false, rebootOk := false },
        { up := false, now := 20, shouldReboot := false, rebootOk := false }] ++
        [{ up := false, now := 30, shouldReboot := false, rebootOk := false }]) :=
  Watchdog.failure_threshold_escalation.2.1 true
    [{ up := false, now := 10, shouldReboot := false, rebootOk := false },
      { up := false, now := 20, shouldReboot := false, rebootOk := false }]
    { up := false, now := 30, shouldReboot := false, rebootOk := false }
    (by decide)

